import Mathlib

/-!
Shallow embedding of the ClearHead scheduling and task-lifecycle core.

Timestamps are JS epoch milliseconds, modelled as `Int`.  JS array
indexing `xs[i]` (which yields `undefined` out of bounds) is modelled by
`jsIndex` returning `Option`.  The JS truthiness test `x || d` on a
nullable number (false for `null` and for `0`) is modelled by `jsOrInt`.
`Date.now()` is passed explicitly as a `now : Int` parameter.
-/

/-- Milliseconds in a day, `1000 * 60 * 60 * 24`. -/
def msPerDay : Int := 86400000

/-- JS array read `xs[i]`: `undefined` (`none`) when `i` is negative or
past the end. -/
def jsIndex (xs : List Nat) (i : Int) : Option Nat :=
  if i < 0 then none else xs.get? i.toNat

/-- JS `x || d` on a nullable number: `d` when `x` is `null` or `0`. -/
def jsOrInt (x : Option Int) (d : Int) : Int :=
  match x with
  | none => d
  | some v => if v = 0 then d else v

/-- Feedback types for review responses (`ReviewFeedback` in the source). -/
inductive ReviewFeedback
  | again
  | hard
  | good
  | easy
deriving DecidableEq, Repr

namespace CogniFlow

/-- Review intervals in days based on level 0-8 (`REVIEW_INTERVALS`). -/
def REVIEW_INTERVALS : List Nat := [1, 2, 5, 10, 21, 50, 90, 180, 365]

/-- Level at which a topic is considered mastered (`MASTERY_LEVEL`). -/
def MASTERY_LEVEL : Int := 5

/-- `calculateNextLevel(currentLevel, feedback)` from the level-based
CogniFlow engine. -/
def calculateNextLevel (currentLevel : Int) (feedback : ReviewFeedback) : Int :=
  match feedback with
  | .again => 0
  | .hard => max 0 (currentLevel - 1)
  | .good => currentLevel
  | .easy => min ((REVIEW_INTERVALS.length : Int) - 1) (currentLevel + 1)

/-- The interval-table read shared by `calculateNextReview` and
`getIntervalDescription`: `REVIEW_INTERVALS[Math.min(level, length - 1)]`. -/
def intervalLookup (level : Int) : Option Nat :=
  jsIndex REVIEW_INTERVALS (min level ((REVIEW_INTERVALS.length : Int) - 1))

/-- `calculateNextReview(level)`: `now + intervalDays * 24*60*60*1000`;
`none` models the JS `NaN` produced when the table read is `undefined`. -/
def calculateNextReview (level : Int) (now : Int) : Option Int :=
  (intervalLookup level).map (fun intervalDays => now + (intervalDays : Int) * msPerDay)

/-- Result record of `calculateNextReviewFromFeedback`. -/
structure ReviewResult where
  nextLevel : Int
  nextReviewAt : Option Int
  isMastered : Bool
deriving DecidableEq, Repr

/-- `calculateNextReviewFromFeedback(currentLevel, feedback)`. -/
def calculateNextReviewFromFeedback (currentLevel : Int) (feedback : ReviewFeedback)
    (now : Int) : ReviewResult :=
  let nextLevel := calculateNextLevel currentLevel feedback
  { nextLevel := nextLevel
    nextReviewAt := calculateNextReview nextLevel now
    isMastered := decide (MASTERY_LEVEL ≤ nextLevel) }

/-- Decay states of the level-based engine. -/
inductive DecayState
  | fresh
  | due
  | overdue
  | critical
deriving DecidableEq, Repr

/-- `calculateDecayState(nextReviewAt)` of the level-based engine; note the
JS guard `if (!nextReviewAt) return 'fresh'` is also taken at `0`, and the
function reads `Date.now()`, here the explicit `now`. -/
def calculateDecayState (nextReviewAt : Option Int) (now : Int) : DecayState :=
  match nextReviewAt with
  | none => .fresh
  | some v =>
    if v = 0 then .fresh
    else
      let daysOverdue := Int.fdiv (now - v) msPerDay
      if daysOverdue < 0 then .fresh
      else if daysOverdue = 0 then .due
      else if daysOverdue ≤ 3 then .overdue
      else .critical

/-- `needsReviewToday(nextReviewAt)` of the level-based engine; the JS
guard `if (!nextReviewAt) return false` is also taken at `0`. -/
def needsReviewToday (nextReviewAt : Option Int) (now : Int) : Bool :=
  match nextReviewAt with
  | none => false
  | some v => if v = 0 then false else decide (v ≤ now)

end CogniFlow

namespace Ebbinghaus

/-- Review intervals in days of the confidence-based engine. -/
def REVIEW_INTERVALS : List Nat := [1, 3, 7, 21, 45]

/-- Decay states of the confidence-based engine. -/
inductive DecayState
  | fresh
  | unstable
  | decaying
  | neglected
deriving DecidableEq, Repr

/-- `calculateDecayState(lastReviewedAt)` of the confidence-based engine;
reads `Date.now()`, here the explicit `now`. -/
def calculateDecayState (lastReviewedAt : Int) (now : Int) : DecayState :=
  let daysSinceReview := Int.fdiv (now - lastReviewedAt) msPerDay
  if daysSinceReview ≤ 1 then .fresh
  else if daysSinceReview ≤ 3 then .unstable
  else if daysSinceReview ≤ 7 then .decaying
  else .neglected

/-- `needsReviewToday(nextReviewAt)` of the confidence-based engine; the JS
guard `if (!nextReviewAt) return false` is also taken at `0`. -/
def needsReviewToday (nextReviewAt : Option Int) (now : Int) : Bool :=
  match nextReviewAt with
  | none => false
  | some v => if v = 0 then false else decide (v ≤ now)

end Ebbinghaus

/-- Task status (`'pending' | 'in_progress' | 'completed' | 'skipped'`). -/
inductive TaskStatus
  | pending
  | inProgress
  | completed
  | skipped
deriving DecidableEq, Repr

/-- Timeline entry types. -/
inductive EntryType
  | problem
  | studySession
  | missedRevision
  | plannerFailure
  | thought
deriving DecidableEq, Repr

/-- A `timeline_entries` row. -/
structure TimelineEntry where
  id : Nat
  entryType : EntryType
  referenceId : Nat
  title : String
  description : String
  createdAt : Int
  wasAvoided : Bool
deriving DecidableEq, Repr

namespace Planner

/-- A planner `Task` row (schema fields in camelCase). -/
structure Task where
  id : Nat
  name : String
  timeEstimateMinutes : Int
  decayCost : Int
  isRecovery : Bool
  isHabit : Bool
  habitId : Option Nat
  originalTaskId : Option Nat
  status : TaskStatus
  scheduledDate : Option String
  scheduledTime : Option String
  priority : Option Int
  completedAt : Option Int
  skippedAt : Option Int
  createdAt : Int
  updatedAt : Int
deriving DecidableEq, Repr

/-- The planner store state visible to the task-lifecycle operations:
the `tasks` table and the `timeline_entries` table. -/
structure PlannerState where
  tasks : List Task
  timeline : List TimelineEntry
deriving DecidableEq, Repr

/-- The per-row effect of `skipTask`'s `UPDATE tasks SET status =
'skipped', skipped_at = ?, updated_at = ? WHERE id = ?`. -/
def skipUpdate (id : Nat) (now : Int) (t : Task) : Task :=
  if t.id = id then
    { t with status := .skipped, skippedAt := some now, updatedAt := now }
  else t

/-- The `planner_failure` timeline entry inserted by `skipTask`. -/
def skipEntry (id timelineId : Nat) (name : String) (now : Int) : TimelineEntry :=
  { id := timelineId, entryType := .plannerFailure, referenceId := id,
    title := name, description := "Task skipped", createdAt := now,
    wasAvoided := true }

/-- `skipTask(id)` from the planner store: marks the task skipped (it stays
on the same date) and appends one `planner_failure` timeline entry with
`was_avoided = 1`; `none` models the `throw` when the id is not found.
`timelineId` stands for the `generateId()` of the new entry, `now` for the
`now()` timestamp. -/
def skipTask (id timelineId : Nat) (now : Int) (s : PlannerState) : Option PlannerState :=
  (s.tasks.find? (fun t => t.id == id)).map (fun task =>
    { tasks := s.tasks.map (skipUpdate id now)
      timeline := s.timeline ++ [skipEntry id timelineId task.name now] })

/-- The per-row effect of `undoTask`'s `UPDATE tasks SET status =
'pending', completed_at = NULL, skipped_at = NULL, updated_at = ? WHERE
id = ?`. -/
def undoUpdate (id : Nat) (now : Int) (t : Task) : Task :=
  if t.id = id then
    { t with status := .pending, completedAt := none, skippedAt := none,
             updatedAt := now }
  else t

/-- `undoTask(id)` from the planner store: resets the task to pending with
`completed_at`/`skipped_at` cleared; when the task being undone was
skipped, deletes every task with `original_task_id = id` and
`is_recovery = 1`; deletes every timeline entry with `reference_id = id`.
`none` models the `throw` when the id is not found. -/
def undoTask (id : Nat) (now : Int) (s : PlannerState) : Option PlannerState :=
  (s.tasks.find? (fun t => t.id == id)).map (fun task =>
    { tasks := (s.tasks.map (undoUpdate id now)).filter (fun t =>
        !(decide (task.status = .skipped) && decide (t.originalTaskId = some id)
          && t.isRecovery))
      timeline := s.timeline.filter (fun e => !(e.referenceId == id)) })

/-- The per-row effect of `deleteTask`'s `UPDATE timeline_entries SET
title = ?, description = ?, was_avoided = 1 WHERE reference_id = ?`. -/
def deleteRewrite (id : Nat) (name deleteDate : String) (e : TimelineEntry) : TimelineEntry :=
  if e.referenceId = id then
    { e with title := name ++ " (deleted " ++ deleteDate ++ ")",
             description := "Task was deleted", wasAvoided := true }
  else e

/-- The fresh `planner_failure` entry `deleteTask` inserts when no
timeline entry references the task yet. -/
def deleteEntry (id timelineId : Nat) (name deleteDate : String) (now : Int) : TimelineEntry :=
  { id := timelineId, entryType := .plannerFailure, referenceId := id,
    title := name ++ " (deleted " ++ deleteDate ++ ")",
    description := "Task deleted", createdAt := now, wasAvoided := true }

/-- `deleteTask(id)` from the planner store: removes the task; when the
task was found in the state, either rewrites every existing timeline entry
with `reference_id = id` (title gets the `(deleted ...)` marker,
`was_avoided = 1`) or, when none exists, inserts a fresh `planner_failure`
entry.  `deleteDate` stands for `toLocaleDateString` of `now`. -/
def deleteTask (id timelineId : Nat) (now : Int) (deleteDate : String)
    (s : PlannerState) : PlannerState :=
  let tasks' := s.tasks.filter (fun t => !(t.id == id))
  match s.tasks.find? (fun t => t.id == id) with
  | none => { tasks := tasks', timeline := s.timeline }
  | some task =>
    match s.timeline.find? (fun e => e.referenceId == id) with
    | some _ =>
      { tasks := tasks'
        timeline := s.timeline.map (deleteRewrite id task.name deleteDate) }
    | none =>
      { tasks := tasks'
        timeline := s.timeline ++ [deleteEntry id timelineId task.name deleteDate now] }

end Planner

/-- A `study_topics` row (confidence-based learning store). -/
structure StudyTopic where
  id : Nat
  topic : String
  timeSpentMinutes : Int
  confidenceLevel : Int
  integrityPercent : Int
  decayState : Ebbinghaus.DecayState
  lastReviewedAt : Option Int
  nextReviewAt : Option Int
  reviewCount : Int
  createdAt : Int
  updatedAt : Int
deriving DecidableEq, Repr

/-- A `revisions` row. -/
structure Revision where
  id : Nat
  topicId : Nat
  scheduledAt : Int
  completedAt : Option Int
  wasMissed : Bool
  confidenceBefore : Option Int
  confidenceAfter : Option Int
  createdAt : Int
deriving DecidableEq, Repr

namespace Learning

/-- The learning store state: `study_topics`, `revisions`,
`timeline_entries`. -/
structure LearningState where
  topics : List StudyTopic
  revisions : List Revision
  timeline : List TimelineEntry
deriving DecidableEq, Repr

/-- `markRevisionMissed(revisionId)` from the learning store: sets
`was_missed = 1` on the revision; when the revision and its topic are
found, recomputes the topic's decay state from
`last_reviewed_at || timestamp`, drops `integrity_percent` by 15 (floored
at 0), and appends one `missed_revision` timeline entry with
`was_avoided = 1`. -/
def markRevisionMissed (revisionId timelineId : Nat) (now : Int)
    (s : LearningState) : LearningState :=
  let revisions' := s.revisions.map (fun r =>
    if r.id = revisionId then { r with wasMissed := true } else r)
  match (s.revisions.find? (fun r => r.id == revisionId)).bind
      (fun revision => s.topics.find? (fun t => t.id == revision.topicId)) with
  | none => { s with revisions := revisions' }
  | some topic =>
      let newDecayState := Ebbinghaus.calculateDecayState (jsOrInt topic.lastReviewedAt now) now
      let newIntegrity := max 0 (topic.integrityPercent - 15)
      { topics := s.topics.map (fun t =>
          if t.id = topic.id then
            { t with decayState := newDecayState, integrityPercent := newIntegrity,
                     updatedAt := now }
          else t)
        revisions := revisions'
        timeline := s.timeline ++
          [{ id := timelineId, entryType := .missedRevision, referenceId := revisionId,
             title := topic.topic,
             description := "Revision was missed - integrity dropped to " ++
               toString newIntegrity ++ "%",
             createdAt := now, wasAvoided := true }] }

/-- The `missed_revision` timeline entry appended by `markRevisionMissed`. -/
def missedEntry (revisionId timelineId : Nat) (topicName : String)
    (newIntegrity : Int) (now : Int) : TimelineEntry :=
  { id := timelineId, entryType := .missedRevision, referenceId := revisionId,
    title := topicName,
    description := "Revision was missed - integrity dropped to " ++
      toString newIntegrity ++ "%",
    createdAt := now, wasAvoided := true }

end Learning

/-- A concrete pending task, used to instantiate the lifecycle theorems. -/
def sampleTask : Planner.Task :=
  { id := 1, name := "Write report", timeEstimateMinutes := 30, decayCost := 1,
    isRecovery := false, isHabit := false, habitId := none, originalTaskId := none,
    status := .pending, scheduledDate := some "2024-01-10", scheduledTime := none,
    priority := none, completedAt := none, skippedAt := none, createdAt := 0,
    updatedAt := 0 }

/-- A concrete planner state holding only `sampleTask`. -/
def sampleState : Planner.PlannerState := { tasks := [sampleTask], timeline := [] }

/-- A concrete study topic, used to instantiate the learning theorems. -/
def sampleTopic : StudyTopic :=
  { id := 7, topic := "Calculus", timeSpentMinutes := 40, confidenceLevel := 60,
    integrityPercent := 80, decayState := .fresh, lastReviewedAt := some 1000,
    nextReviewAt := some 87400000, reviewCount := 1, createdAt := 0, updatedAt := 0 }

/-- A concrete open revision of `sampleTopic`. -/
def sampleRevision : Revision :=
  { id := 3, topicId := 7, scheduledAt := 87400000, completedAt := none,
    wasMissed := false, confidenceBefore := none, confidenceAfter := none,
    createdAt := 1000 }

/-- A concrete learning state holding `sampleTopic` and `sampleRevision`. -/
def sampleLearningState : Learning.LearningState :=
  { topics := [sampleTopic], revisions := [sampleRevision], timeline := [] }

/-- `find?` commutes with a `map` whose function preserves the predicate. -/
theorem find?_map_of_pres {α : Type} (l : List α) (p : α → Bool) (f : α → α)
    (hf : ∀ a, p (f a) = p a) :
    (l.map f).find? p = Option.map f (l.find? p) := by
  rw [List.find?_map]
  have h : (p ∘ f) = p := funext hf
  rw [h]

/-- `skipUpdate` only touches `status`, `skippedAt` and `updatedAt`. -/
theorem skipUpdate_pres (id : Nat) (now : Int) (t : Planner.Task) :
    (Planner.skipUpdate id now t).id = t.id
    ∧ (Planner.skipUpdate id now t).isRecovery = t.isRecovery
    ∧ (Planner.skipUpdate id now t).decayCost = t.decayCost
    ∧ (Planner.skipUpdate id now t).originalTaskId = t.originalTaskId := by
  unfold Planner.skipUpdate
  by_cases h : t.id = id <;> simp [h]

/-- `undoUpdate` only touches `status`, `completedAt`, `skippedAt` and
`updatedAt`. -/
theorem undoUpdate_pres (id : Nat) (now : Int) (t : Planner.Task) :
    (Planner.undoUpdate id now t).id = t.id
    ∧ (Planner.undoUpdate id now t).isRecovery = t.isRecovery
    ∧ (Planner.undoUpdate id now t).originalTaskId = t.originalTaskId := by
  unfold Planner.undoUpdate
  by_cases h : t.id = id <;> simp [h]

/-- C1: for every level `L`, `calculateNextLevel` returns `0` for `again`,
`max 0 (L - 1)` for `hard`, `L` for `good`, and `min maxLevel (L + 1)` for
`easy`, where `maxLevel` is the last index of the interval table, `8`. -/
theorem calculateNextLevel_spec (L : Int) :
    CogniFlow.calculateNextLevel L .again = 0
    ∧ CogniFlow.calculateNextLevel L .hard = max 0 (L - 1)
    ∧ CogniFlow.calculateNextLevel L .good = L
    ∧ CogniFlow.calculateNextLevel L .easy =
        min ((CogniFlow.REVIEW_INTERVALS.length : Int) - 1) (L + 1)
    ∧ (CogniFlow.REVIEW_INTERVALS.length : Int) - 1 = 8 :=
  ⟨rfl, rfl, rfl, rfl, by decide⟩

/-- C4 counterexample: at level `-1` the interval read is out of bounds
(`undefined` in JS), so the lookup does not return a table element and
`calculateNextReview` has no numeric result — the lower clamp the claim
describes is absent from the code. -/
theorem intervalLookup_counterexample :
    CogniFlow.intervalLookup (-1) = none
    ∧ CogniFlow.calculateNextReview (-1) 0 = none := ⟨rfl, rfl⟩

/-- C4 amended: for every non-negative level the lookup clamps only from
above (`min level (length - 1)`) and returns an element of the interval
table; any level at or beyond the table's end yields the last interval,
`365`.  Negative levels index out of bounds. -/
theorem intervalLookup_amended (level : Int) (h : 0 ≤ level) :
    (∃ d, CogniFlow.intervalLookup level = some d ∧ d ∈ CogniFlow.REVIEW_INTERVALS)
    ∧ (8 ≤ level → CogniFlow.intervalLookup level = some 365) := by
  have hL : ((CogniFlow.REVIEW_INTERVALS.length : Int) - 1) = 8 := by decide
  have h0 : 0 ≤ min level ((CogniFlow.REVIEW_INTERVALS.length : Int) - 1) := by
    rw [hL]; exact le_min h (by norm_num)
  have h8 : min level ((CogniFlow.REVIEW_INTERVALS.length : Int) - 1) ≤ 8 := by
    rw [hL]; exact min_le_right _ _
  constructor
  · unfold CogniFlow.intervalLookup jsIndex
    rw [if_neg (by omega)]
    have hlen : (min level ((CogniFlow.REVIEW_INTERVALS.length : Int) - 1)).toNat <
        CogniFlow.REVIEW_INTERVALS.length := by
      have : CogniFlow.REVIEW_INTERVALS.length = 9 := rfl
      omega
    exact ⟨_, List.get?_eq_get hlen, List.get_mem _ _ _⟩
  · intro h8'
    have hmin : min level ((CogniFlow.REVIEW_INTERVALS.length : Int) - 1) = 8 := by
      rw [hL]; exact min_eq_right h8'
    unfold CogniFlow.intervalLookup jsIndex
    rw [hmin]
    decide

/-- C4 amended, instantiated at level `10`: the lookup yields the last
interval `365`, an element of the table. -/
theorem intervalLookup_amended_witness :
    (∃ d, CogniFlow.intervalLookup 10 = some d ∧ d ∈ CogniFlow.REVIEW_INTERVALS)
    ∧ CogniFlow.intervalLookup 10 = some 365 :=
  ⟨(intervalLookup_amended 10 (by decide)).1,
   (intervalLookup_amended 10 (by decide)).2 (by decide)⟩

/-- C5 counterexample: at `nextReviewAt = 0` (a non-null timestamp not
greater than `now = 100`) the JS falsiness guard `!nextReviewAt` fires and
the function returns `false`, although the claimed iff demands `true`. -/
theorem needsReviewToday_counterexample :
    CogniFlow.needsReviewToday (some 0) 100 = false
    ∧ (some (0 : Int)).isSome = true ∧ (0 : Int) ≤ 100 := ⟨rfl, rfl, by decide⟩

/-- C5 amended: `needsReviewToday t now` is true iff `t` is non-null,
nonzero, and `t ≤ now`; at the boundary it is true at `t = now` whenever
`now ≠ 0`, and always false at `t = now + 1`. -/
theorem needsReviewToday_amended (t : Option Int) (now : Int) :
    (CogniFlow.needsReviewToday t now = true ↔ ∃ v, t = some v ∧ v ≠ 0 ∧ v ≤ now)
    ∧ (now ≠ 0 → CogniFlow.needsReviewToday (some now) now = true)
    ∧ CogniFlow.needsReviewToday (some (now + 1)) now = false := by
  refine ⟨?_, ?_, ?_⟩
  · cases t with
    | none => simp [CogniFlow.needsReviewToday]
    | some v =>
      by_cases hv : v = 0 <;> simp [CogniFlow.needsReviewToday, hv]
  · intro h
    simp [CogniFlow.needsReviewToday, h]
  · by_cases h : now + 1 = 0
    · simp [CogniFlow.needsReviewToday, h]
    · simp only [CogniFlow.needsReviewToday, if_neg h]
      simp only [decide_eq_false_iff_not]
      omega

/-- C5 amended, instantiated at `now = 5`: a review due exactly now counts
as due, one due a millisecond later does not. -/
theorem needsReviewToday_amended_witness :
    CogniFlow.needsReviewToday (some 5) 5 = true
    ∧ CogniFlow.needsReviewToday (some 6) 5 = false :=
  ⟨(needsReviewToday_amended (some 5) 5).2.1 (by decide),
   (needsReviewToday_amended (some 5) 5).2.2⟩

/-- C6: the scheduler result has `isMastered = true` iff the resulting
`nextLevel` is at least the mastery level `5`; in particular it is false
when `nextLevel = 4` and true when `nextLevel = 5`. -/
theorem isMastered_iff_mastery_level (L : Int) (f : ReviewFeedback) (now : Int) :
    ((CogniFlow.calculateNextReviewFromFeedback L f now).isMastered = true ↔
        5 ≤ (CogniFlow.calculateNextReviewFromFeedback L f now).nextLevel)
    ∧ ((CogniFlow.calculateNextReviewFromFeedback L f now).nextLevel = 4 →
        (CogniFlow.calculateNextReviewFromFeedback L f now).isMastered = false)
    ∧ ((CogniFlow.calculateNextReviewFromFeedback L f now).nextLevel = 5 →
        (CogniFlow.calculateNextReviewFromFeedback L f now).isMastered = true) := by
  refine ⟨?_, ?_, ?_⟩
  · simp [CogniFlow.calculateNextReviewFromFeedback, CogniFlow.MASTERY_LEVEL]
  · intro h
    simp only [CogniFlow.calculateNextReviewFromFeedback] at h ⊢
    simp [h, CogniFlow.MASTERY_LEVEL]
  · intro h
    simp only [CogniFlow.calculateNextReviewFromFeedback] at h ⊢
    simp [h, CogniFlow.MASTERY_LEVEL]

/-- C6 instantiated at the boundary: feedback `good` at level 4 keeps
`nextLevel = 4` and is not mastered; `easy` at level 4 reaches
`nextLevel = 5` and is mastered. -/
theorem isMastered_iff_mastery_level_witness :
    (CogniFlow.calculateNextReviewFromFeedback 4 .good 0).isMastered = false
    ∧ (CogniFlow.calculateNextReviewFromFeedback 4 .easy 0).isMastered = true :=
  ⟨(isMastered_iff_mastery_level 4 .good 0).2.1 (by decide),
   (isMastered_iff_mastery_level 4 .easy 0).2.2 (by decide)⟩

/-- C9 counterexample: `calculateDecayState` reads the clock, so two calls
with the identical declared input `nextReviewAt = 1` observed at different
times return different states — the output is not a function of the
declared input alone. -/
theorem calculateDecayState_counterexample :
    CogniFlow.calculateDecayState (some 1) 1 = CogniFlow.DecayState.due
    ∧ CogniFlow.calculateDecayState (some 1) 345600001 = CogniFlow.DecayState.critical
    ∧ CogniFlow.calculateDecayState (some 1) 1 ≠
        CogniFlow.calculateDecayState (some 1) 345600001 := by
  refine ⟨rfl, rfl, by decide⟩

/-- C9 amended: both `calculateDecayState` variants are deterministic in
the pair (declared input, clock reading): two calls with identical inputs
made at the same clock reading yield identical outputs. -/
theorem calculateDecayState_deterministic (t : Option Int) (l : Int) (n₁ n₂ : Int)
    (h : n₁ = n₂) :
    CogniFlow.calculateDecayState t n₁ = CogniFlow.calculateDecayState t n₂
    ∧ Ebbinghaus.calculateDecayState l n₁ = Ebbinghaus.calculateDecayState l n₂ := by
  subst h; exact ⟨rfl, rfl⟩

/-- C9 amended, instantiated: two calls at input `1` under the same clock
reading `1` agree. -/
theorem calculateDecayState_deterministic_witness :
    CogniFlow.calculateDecayState (some 1) 1 = CogniFlow.calculateDecayState (some 1) 1
    ∧ Ebbinghaus.calculateDecayState 1 1 = Ebbinghaus.calculateDecayState 1 1 :=
  calculateDecayState_deterministic (some 1) 1 1 1 rfl

/-- C10: the level-based and the confidence-based spaced-repetition
modules define extensionally equal `needsReviewToday` gates. -/
theorem needsReviewToday_engines_agree (t : Option Int) (now : Int) :
    CogniFlow.needsReviewToday t now = Ebbinghaus.needsReviewToday t now := rfl

/-- C2 counterexample: skipping the concrete pending task `sampleTask`
(`decayCost = 1`, `timeEstimateMinutes = 30`) produces exactly the state
shown — the one task marked skipped plus one `planner_failure` entry; no
recovery task (with `isRecovery = true`, `originalTaskId = some 1`,
`decayCost = 3`, raised estimate, `priority = 1`, next-day date) is
created, contrary to the claim. -/
theorem skipTask_counterexample :
    Planner.skipTask 1 2 1000 sampleState = some
      { tasks := [{ sampleTask with
          status := .skipped, skippedAt := some 1000, updatedAt := 1000 }],
        timeline := [Planner.skipEntry 1 2 "Write report" 1000] } := by
  rfl

/-- C2 amended: skipping a task sets its status to skipped with
`skippedAt = now` and appends a `planner_failure` timeline entry with
`wasAvoided = true`, but creates no task: the task list keeps its length
and every task afterwards has the recovery-related fields of a task that
was already present. -/
theorem skipTask_spec (s : Planner.PlannerState) (id tid : Nat) (now : Int)
    (T : Planner.Task) (hT : s.tasks.find? (fun t => t.id == id) = some T) :
    ∃ s', Planner.skipTask id tid now s = some s'
    ∧ (∀ t ∈ s'.tasks, t.id = id → t.status = .skipped ∧ t.skippedAt = some now)
    ∧ s'.timeline = s.timeline ++ [Planner.skipEntry id tid T.name now]
    ∧ s'.tasks.length = s.tasks.length
    ∧ (∀ t ∈ s'.tasks, ∃ t₀ ∈ s.tasks,
        t.isRecovery = t₀.isRecovery ∧ t.decayCost = t₀.decayCost
        ∧ t.originalTaskId = t₀.originalTaskId) := by
  refine ⟨{ tasks := s.tasks.map (Planner.skipUpdate id now),
            timeline := s.timeline ++ [Planner.skipEntry id tid T.name now] },
          ?_, ?_, rfl, ?_, ?_⟩
  · unfold Planner.skipTask
    rw [hT]
    rfl
  · intro t ht hid
    obtain ⟨t₀, ht₀, rfl⟩ := List.mem_map.mp ht
    have hid' : t₀.id = id := by
      rw [← (skipUpdate_pres id now t₀).1]; exact hid
    unfold Planner.skipUpdate
    rw [if_pos hid']
    exact ⟨rfl, rfl⟩
  · exact List.length_map _ _
  · intro t ht
    obtain ⟨t₀, ht₀, rfl⟩ := List.mem_map.mp ht
    exact ⟨t₀, ht₀, (skipUpdate_pres id now t₀).2.1,
      (skipUpdate_pres id now t₀).2.2.1, (skipUpdate_pres id now t₀).2.2.2⟩

/-- C2 amended, instantiated at `sampleState`: the skipped task is marked
skipped with its timestamp set. -/
theorem skipTask_spec_witness :
    ∃ s', Planner.skipTask 1 2 1000 sampleState = some s'
    ∧ (∀ t ∈ s'.tasks, t.id = 1 → t.status = .skipped ∧ t.skippedAt = some 1000) := by
  obtain ⟨s', h₁, h₂, -, -, -⟩ := skipTask_spec sampleState 1 2 1000 sampleTask rfl
  exact ⟨s', h₁, h₂⟩

/-- C3: for a pending task `T` (not a recovery task referencing itself),
undo after skip restores `T` to pending with `skippedAt` and
`completedAt` cleared, no recovery task referencing `T` remains, and —
when no timeline entry referenced `T` beforehand — the timeline is back to
its pre-skip value. -/
theorem undo_skip_roundtrip (s : Planner.PlannerState) (id tid : Nat) (now₁ now₂ : Int)
    (T : Planner.Task) (hT : s.tasks.find? (fun t => t.id == id) = some T)
    (hpend : T.status = .pending)
    (hself : ¬(T.isRecovery = true ∧ T.originalTaskId = some id)) :
    ∃ s₁ s₂, Planner.skipTask id tid now₁ s = some s₁
    ∧ Planner.undoTask id now₂ s₁ = some s₂
    ∧ (∃ t ∈ s₂.tasks, t.id = id)
    ∧ (∀ t ∈ s₂.tasks, t.id = id →
        t.status = .pending ∧ t.skippedAt = none ∧ t.completedAt = none)
    ∧ (∀ t ∈ s₂.tasks, ¬(t.isRecovery = true ∧ t.originalTaskId = some id))
    ∧ ((∀ e ∈ s.timeline, e.referenceId ≠ id) → s₂.timeline = s.timeline) := by
  have hTid : T.id = id := by
    have h := List.find?_some hT
    simpa using h
  have hTmem : T ∈ s.tasks := List.mem_of_find?_eq_some hT
  have hfind₁ : (s.tasks.map (Planner.skipUpdate id now₁)).find? (fun t => t.id == id)
      = some (Planner.skipUpdate id now₁ T) := by
    rw [find?_map_of_pres _ _ _
      (fun t => by simp [(skipUpdate_pres id now₁ t).1]), hT]
    rfl
  have hskT : Planner.skipUpdate id now₁ T
      = { T with status := .skipped, skippedAt := some now₁, updatedAt := now₁ } := by
    unfold Planner.skipUpdate
    rw [if_pos hTid]
  refine ⟨{ tasks := s.tasks.map (Planner.skipUpdate id now₁),
            timeline := s.timeline ++ [Planner.skipEntry id tid T.name now₁] },
          { tasks := ((s.tasks.map (Planner.skipUpdate id now₁)).map
                (Planner.undoUpdate id now₂)).filter
              (fun t => !(decide ((Planner.skipUpdate id now₁ T).status = .skipped)
                && decide (t.originalTaskId = some id) && t.isRecovery)),
            timeline := (s.timeline ++ [Planner.skipEntry id tid T.name now₁]).filter
              (fun e => !(e.referenceId == id)) },
          ?_, ?_, ?_, ?_, ?_, ?_⟩
  · unfold Planner.skipTask
    rw [hT]
    rfl
  · unfold Planner.undoTask
    rw [hfind₁]
    rfl
  · refine ⟨Planner.undoUpdate id now₂ (Planner.skipUpdate id now₁ T),
      List.mem_filter.mpr ⟨List.mem_map_of_mem _ (List.mem_map_of_mem _ hTmem), ?_⟩, ?_⟩
    · have hB : (Planner.undoUpdate id now₂ (Planner.skipUpdate id now₁ T)).originalTaskId
          = T.originalTaskId := by
        rw [(undoUpdate_pres id now₂ _).2.2, (skipUpdate_pres id now₁ T).2.2.2]
      have hC : (Planner.undoUpdate id now₂ (Planner.skipUpdate id now₁ T)).isRecovery
          = T.isRecovery := by
        rw [(undoUpdate_pres id now₂ _).2.1, (skipUpdate_pres id now₁ T).2.1]
      by_cases hrec : T.isRecovery = true
      · have horig : T.originalTaskId ≠ some id := fun h => hself ⟨hrec, h⟩
        simp [hB, hC, horig]
      · simp [hB, hC, hrec]
    · rw [(undoUpdate_pres id now₂ _).1, (skipUpdate_pres id now₁ T).1]
      exact hTid
  · intro t ht hid
    have ht' := (List.mem_filter.mp ht).1
    obtain ⟨t₁, ht₁, rfl⟩ := List.mem_map.mp ht'
    have hid₁ : t₁.id = id := by
      rw [← (undoUpdate_pres id now₂ t₁).1]; exact hid
    unfold Planner.undoUpdate
    rw [if_pos hid₁]
    exact ⟨rfl, rfl, rfl⟩
  · intro t ht hcon
    have hp := (List.mem_filter.mp ht).2
    rw [hskT] at hp
    simp [hcon.1, hcon.2] at hp
  · intro hno
    rw [List.filter_append]
    have h1 : s.timeline.filter (fun e => !(e.referenceId == id)) = s.timeline :=
      List.filter_eq_self.mpr (fun e he => by simp [hno e he])
    have h2 : List.filter (fun e => !(e.referenceId == id))
        [Planner.skipEntry id tid T.name now₁] = [] := by
      simp [Planner.skipEntry]
    rw [h1, h2, List.append_nil]

/-- C3 instantiated at `sampleState`: skipping then undoing the sample
task leaves it pending with cleared timestamps and the timeline as it
was. -/
theorem undo_skip_roundtrip_witness :
    ∃ s₁ s₂, Planner.skipTask 1 2 1000 sampleState = some s₁
    ∧ Planner.undoTask 1 2000 s₁ = some s₂
    ∧ (∀ t ∈ s₂.tasks, t.id = 1 →
        t.status = .pending ∧ t.skippedAt = none ∧ t.completedAt = none)
    ∧ s₂.timeline = sampleState.timeline := by
  obtain ⟨s₁, s₂, h₁, h₂, -, h₄, -, h₆⟩ :=
    undo_skip_roundtrip sampleState 1 2 1000 2000 sampleTask rfl rfl (by decide)
  exact ⟨s₁, s₂, h₁, h₂, h₄, h₆ (fun e he => absurd he (List.not_mem_nil e))⟩

/-- C8: deleting a task that is present in the state removes it and always
leaves an audit trace: with no timeline entry referencing the task, a
fresh `planner_failure` entry tagged `(deleted ...)` is appended; with one
present, every referencing entry is rewritten in place; either way at
least one timeline entry referencing the deleted task remains. -/
theorem deleteTask_audit (s : Planner.PlannerState) (id tid : Nat) (now : Int)
    (d : String) (T : Planner.Task)
    (hT : s.tasks.find? (fun t => t.id == id) = some T) :
    (∀ t ∈ (Planner.deleteTask id tid now d s).tasks, t.id ≠ id)
    ∧ ((∀ e ∈ s.timeline, e.referenceId ≠ id) →
        (Planner.deleteTask id tid now d s).timeline
          = s.timeline ++ [Planner.deleteEntry id tid T.name d now])
    ∧ ((∃ e ∈ s.timeline, e.referenceId = id) →
        (Planner.deleteTask id tid now d s).timeline
          = s.timeline.map (Planner.deleteRewrite id T.name d))
    ∧ (∃ e ∈ (Planner.deleteTask id tid now d s).timeline, e.referenceId = id) := by
  cases hE : s.timeline.find? (fun e => e.referenceId == id) with
  | none =>
    have hdel : Planner.deleteTask id tid now d s
        = { tasks := s.tasks.filter (fun t => !(t.id == id)),
            timeline := s.timeline ++ [Planner.deleteEntry id tid T.name d now] } := by
      unfold Planner.deleteTask
      rw [hT, hE]
    rw [hdel]
    refine ⟨?_, fun _ => rfl, ?_, ?_⟩
    · intro t ht
      have h := (List.mem_filter.mp ht).2
      simpa using h
    · rintro ⟨e, he, heq⟩
      exfalso
      have h := List.find?_eq_none.mp hE e he
      simp [heq] at h
    · exact ⟨Planner.deleteEntry id tid T.name d now, by simp, rfl⟩
  | some e₀ =>
    have hdel : Planner.deleteTask id tid now d s
        = { tasks := s.tasks.filter (fun t => !(t.id == id)),
            timeline := s.timeline.map (Planner.deleteRewrite id T.name d) } := by
      unfold Planner.deleteTask
      rw [hT, hE]
    rw [hdel]
    have he₀mem : e₀ ∈ s.timeline := List.mem_of_find?_eq_some hE
    have he₀id : e₀.referenceId = id := by
      have h := List.find?_some hE
      simpa using h
    refine ⟨?_, ?_, fun _ => rfl, ?_⟩
    · intro t ht
      have h := (List.mem_filter.mp ht).2
      simpa using h
    · intro hno
      exact absurd he₀id (hno e₀ he₀mem)
    · refine ⟨Planner.deleteRewrite id T.name d e₀, List.mem_map_of_mem _ he₀mem, ?_⟩
      unfold Planner.deleteRewrite
      rw [if_pos he₀id]
      exact he₀id

/-- C8 instantiated at `sampleState` (no prior timeline entry): after
deletion no task with the id remains and a referencing audit entry
exists. -/
theorem deleteTask_audit_witness :
    (∀ t ∈ (Planner.deleteTask 1 2 1000 "Jan 1" sampleState).tasks, t.id ≠ 1)
    ∧ (∃ e ∈ (Planner.deleteTask 1 2 1000 "Jan 1" sampleState).timeline,
        e.referenceId = 1) := by
  obtain ⟨h₁, -, -, h₄⟩ := deleteTask_audit sampleState 1 2 1000 "Jan 1" sampleTask rfl
  exact ⟨h₁, h₄⟩

/-- C7: marking a revision missed sets `wasMissed = true` on it, drops its
topic's `integrityPercent` by exactly 15 floored at 0, recomputes the
topic's decay state from the time elapsed since the last review, and
appends exactly one `missed_revision` timeline entry with
`wasAvoided = true`. -/
theorem markRevisionMissed_spec (s : Learning.LearningState) (rid tid : Nat) (now : Int)
    (R : Revision) (hR : s.revisions.find? (fun r => r.id == rid) = some R)
    (T : StudyTopic) (hT : s.topics.find? (fun t => t.id == R.topicId) = some T)
    (l : Int) (hl : T.lastReviewedAt = some l) (hl0 : l ≠ 0) :
    (∀ r ∈ (Learning.markRevisionMissed rid tid now s).revisions,
        r.id = rid → r.wasMissed = true)
    ∧ (∀ t ∈ (Learning.markRevisionMissed rid tid now s).topics, t.id = T.id →
        t.integrityPercent = max 0 (T.integrityPercent - 15)
        ∧ t.decayState = Ebbinghaus.calculateDecayState l now)
    ∧ (Learning.markRevisionMissed rid tid now s).timeline
        = s.timeline ++
          [Learning.missedEntry rid tid T.topic (max 0 (T.integrityPercent - 15)) now] := by
  have hjs : jsOrInt T.lastReviewedAt now = l := by
    simp [jsOrInt, hl, hl0]
  have hmark : Learning.markRevisionMissed rid tid now s =
      { topics := s.topics.map (fun t =>
          if t.id = T.id then
            { t with
              decayState :=
                Ebbinghaus.calculateDecayState (jsOrInt T.lastReviewedAt now) now,
              integrityPercent := max 0 (T.integrityPercent - 15),
              updatedAt := now }
          else t),
        revisions := s.revisions.map (fun r =>
          if r.id = rid then { r with wasMissed := true } else r),
        timeline := s.timeline ++
          [Learning.missedEntry rid tid T.topic (max 0 (T.integrityPercent - 15)) now] } := by
    have hbind : (s.revisions.find? (fun r => r.id == rid)).bind
        (fun revision => s.topics.find? (fun t => t.id == revision.topicId)) = some T := by
      rw [hR]
      exact hT
    unfold Learning.markRevisionMissed
    rw [hbind]
    rfl
  rw [hmark]
  refine ⟨?_, ?_, rfl⟩
  · intro r hr hid
    obtain ⟨r₀, hr₀, rfl⟩ := List.mem_map.mp hr
    by_cases h : r₀.id = rid
    · simp [h]
    · have h' : r₀.id = rid := by simpa [h] using hid
      exact absurd h' h
  · intro t ht hid
    obtain ⟨t₀, ht₀, rfl⟩ := List.mem_map.mp ht
    by_cases h : t₀.id = T.id
    · simp [h, hjs]
    · have h' : t₀.id = T.id := by simpa [h] using hid
      exact absurd h' h

/-- C7 instantiated at `sampleLearningState`: the sample revision is
marked missed and exactly one `missed_revision` entry is appended. -/
theorem markRevisionMissed_spec_witness :
    (∀ r ∈ (Learning.markRevisionMissed 3 9 200000000 sampleLearningState).revisions,
        r.id = 3 → r.wasMissed = true)
    ∧ (Learning.markRevisionMissed 3 9 200000000 sampleLearningState).timeline
        = sampleLearningState.timeline ++
          [Learning.missedEntry 3 9 "Calculus" (max 0 (80 - 15)) 200000000] := by
  obtain ⟨h₁, -, h₃⟩ := markRevisionMissed_spec sampleLearningState 3 9 200000000
    sampleRevision rfl sampleTopic rfl 1000 rfl (by decide)
  exact ⟨h₁, h₃⟩
